import Mathlib

/-!
Verification of provider-configuration resolution and client construction for
the Cloudflare Terraform provider, embedded shallowly from
`internal/sdkv2provider/provider.go` (`configure`) and
`internal/framework/provider/provider.go` (`CloudflareProvider.Configure`).
-/

namespace Cloudflare

/-! ## Schema keys (from the schema maps and the `tfsdk` struct tags in the source) -/

def emailSchemaKey : String := "email"

def apiKeySchemaKey : String := "api_key"

def apiTokenSchemaKey : String := "api_token"

def apiUserServiceKeySchemaKey : String := "api_user_service_key"

def rpsSchemaKey : String := "rps"

def retriesSchemaKey : String := "retries"

def minimumBackoffSchemaKey : String := "min_backoff"

def maximumBackoffSchemaKey : String := "max_backoff"

def accountIDSchemaKey : String := "account_id"

def apiHostnameSchemaKey : String := "api_hostname"

def apiBasePathSchemaKey : String := "api_base_path"

/-! ## Environment -/

/-- The process environment: a read-only map from variable names to values;
`none` means the variable is unset. -/
def Env : Type := String → Option String

/-- Modelled from the spec: the `internal/consts` package is not under src/.
Each configuration field has a dedicated environment-variable name; the exact
strings only need to be distinct per field. -/
def emailEnvVarKey : String := "CLOUDFLARE_EMAIL"

/-- Modelled from the spec: dedicated environment variable for `api_key`. -/
def apiKeyEnvVarKey : String := "CLOUDFLARE_API_KEY"

/-- Modelled from the spec: dedicated environment variable for `api_token`. -/
def apiTokenEnvVarKey : String := "CLOUDFLARE_API_TOKEN"

/-- Modelled from the spec: dedicated environment variable for `api_user_service_key`. -/
def apiUserServiceKeyEnvVarKey : String := "CLOUDFLARE_API_USER_SERVICE_KEY"

/-- Modelled from the spec: dedicated environment variable for `rps`. -/
def rpsEnvVarKey : String := "CLOUDFLARE_RPS"

/-- Modelled from the spec: dedicated environment variable for `retries`. -/
def retriesEnvVarKey : String := "CLOUDFLARE_RETRIES"

/-- Modelled from the spec: dedicated environment variable for `min_backoff`. -/
def minimumBackoffEnvVar : String := "CLOUDFLARE_MIN_BACKOFF"

/-- Modelled from the spec: dedicated environment variable for `max_backoff`. -/
def maximumBackoffEnvVarKey : String := "CLOUDFLARE_MAX_BACKOFF"

/-- Modelled from the spec: dedicated environment variable for `account_id`. -/
def accountIDEnvVarKey : String := "CLOUDFLARE_ACCOUNT_ID"

/-- Modelled from the spec: dedicated environment variable for `api_hostname`. -/
def apiHostnameEnvVarKey : String := "CLOUDFLARE_API_HOSTNAME"

/-- Modelled from the spec: dedicated environment variable for `api_base_path`. -/
def apiBasePathEnvVarKey : String := "CLOUDFLARE_API_BASE_PATH"

/-- Modelled from the spec: built-in default hostname (`consts.APIHostnameDefault`
is not under src/; the spec says `baseHostname` always has a built-in default). -/
def apiHostnameDefault : String := "api.cloudflare.com"

/-- Modelled from the spec: built-in default base path. -/
def apiBasePathDefault : String := "/client/v4"

/-- Modelled from the spec: built-in default for `rps`, as the string handed to
the environment lookup and then parsed. -/
def rpsDefault : String := "4"

/-- Modelled from the spec: built-in default for `retries`. -/
def retriesDefault : String := "3"

/-- Modelled from the spec: built-in default for `min_backoff`. -/
def minimumBackoffDefault : String := "1"

/-- Modelled from the spec: built-in default for `max_backoff`. -/
def maximumBackoffDefault : String := "30"

/-- Modelled from the spec: `utils.GetDefaultFromEnv` is not under src/. The
spec describes it as: given a variable name and a fallback, return the
environment value if present and non-empty, else the fallback. -/
def getDefaultFromEnv (env : Env) (key default_ : String) : String :=
  match env key with
  | some v => if v ≠ "" then v else default_
  | none => default_

/-! ## Go `strconv.ParseInt(s, 10, 64)`

The source parses environment-supplied integers with `strconv.ParseInt` and
discards the error (`i, _ := strconv.ParseInt(...)`). Go returns 0 on a syntax
error and the clamped extreme (`math.MaxInt64` / `math.MinInt64`) on a range
error, so the discarded-error value is total. -/

def maxInt64 : Int := 2 ^ 63 - 1

def minInt64 : Int := -(2 ^ 63)

/-- The digit part of a base-10 integer literal: the characters after an
optional leading sign. -/
def goIntDigits (s : String) : List Char :=
  match s.toList with
  | '+' :: rest => rest
  | '-' :: rest => rest
  | l => l

/-- Whether the literal carries a leading minus sign. -/
def goIntNeg (s : String) : Bool :=
  match s.toList with
  | '-' :: _ => true
  | _ => false

/-- Go base-10 syntax: an optional sign followed by at least one ASCII digit. -/
def goIntSyntaxOk (s : String) : Bool :=
  let ds := goIntDigits s
  !ds.isEmpty && ds.all (fun c => c.isDigit)

def digitsToNat (l : List Char) : Nat :=
  l.foldl (fun a c => a * 10 + (c.toNat - 48)) 0

/-- The mathematical value of a syntactically valid base-10 literal. -/
def goIntVal (s : String) : Int :=
  if goIntNeg s then -(digitsToNat (goIntDigits s) : Int)
  else (digitsToNat (goIntDigits s) : Int)

/-- The value `strconv.ParseInt(s, 10, 64)` returns once the error is
discarded: 0 on syntax error, the 64-bit extreme on range error, else the
value itself. -/
def goParseInt64 (s : String) : Int :=
  if goIntSyntaxOk s then
    if goIntVal s > maxInt64 then maxInt64
    else if goIntVal s < minInt64 then minInt64
    else goIntVal s
  else 0

/-- `strconv.IntSize`: the width in bits of Go's `int`, 64 on 64-bit
platforms; the bound used by the too-large checks in both Configure
functions. -/
def strconvIntSize : Int := 64

/-! ## Diagnostics, client options, `Config` -/

/-- One entry of the diagnostics collection. The sdkv2 provider fills only
`Summary`; the framework provider's `AddError` fills summary and detail. -/
structure Diagnostic where
  summary : String
  detail : String := ""
  deriving DecidableEq, Repr

/-- The `cloudflare.Option` values attached during client construction. -/
inductive ClientOption where
  | usingRateLimit (rps : Int)
  | usingRetryPolicy (maxRetries minRetryDelaySecs maxRetryDelaySecs : Int)
  | baseURL (url : String)
  | debug (enabled : Bool)
  | userAgent (ua : String)
  | usingAccount (accountID : String)
  deriving DecidableEq, Repr

/-- The provider `Config` handed to `Config.Client`: the option list plus the
credential fields set during resolution. -/
structure Config where
  options : List ClientOption := []
  apiToken : String := ""
  apiKey : String := ""
  email : String := ""
  apiUserServiceKey : String := ""
  deriving DecidableEq, Repr

deriving instance DecidableEq for Except

/-- Go `%q` of a plain identifier-like string: wrap it in double quotes. -/
def goQuote (s : String) : String := "\"" ++ s ++ "\""

/-- The too-large diagnostic text, `fmt.Sprintf("%s value of %d is too large,
try a smaller value.", ...)` as the source builds it per field. -/
def tooLargeMsg (field : String) (v : Int) : String :=
  field ++ " value of " ++ toString v ++ " is too large, try a smaller value."

/-- `fmt.Sprintf("%q is not set correctly", consts.EmailSchemaKey)`. -/
def emailNotSetSummary : String := goQuote emailSchemaKey ++ " is not set correctly"

/-- The framework provider's email error detail: `fmt.Sprintf("%q is required
with %q and was not configured", email, api_key)`. -/
def emailRequiredDetail : String :=
  goQuote emailSchemaKey ++ " is required with " ++ goQuote apiKeySchemaKey ++
    " and was not configured"

/-- `fmt.Sprintf("must provide one of %q, %q or %q.", ...)` over the three
credential schema keys. -/
def mustProvideMsg : String :=
  "must provide one of " ++ goQuote apiKeySchemaKey ++ ", " ++
    goQuote apiTokenSchemaKey ++ " or " ++ goQuote apiUserServiceKeySchemaKey ++ "."

/-- Modelled from the spec: `consts.UserAgentDefault` is not under src/; the
spec says the user agent embeds the orchestrating tool's version, the core
library's version and the provider version in a fixed format. -/
def userAgentDefault (terraformVersion sdkVersion providerVersion : String) : String :=
  "terraform/" ++ terraformVersion ++ " terraform-plugin-sdk/" ++ sdkVersion ++
    " terraform-provider-cloudflare/" ++ providerVersion

/-- Whether `pat` occurs as a contiguous run inside `l`. -/
def occursIn (pat : List Char) : List Char → Bool
  | [] => pat.isEmpty
  | c :: rest => pat.isPrefixOf (c :: rest) || occursIn pat rest

/-- Substring test used to state what a diagnostic message names: `sub`
occurs contiguously in `s`. -/
def containsSubstr (s sub : String) : Bool := occursIn sub.toList s.toList

end Cloudflare

namespace Cloudflare.Sdkv2

open Cloudflare

/-- The provider configuration block as the sdkv2 `schema.ResourceData`
carries it: each optional field either set (`some`) or unset (`none`). -/
structure ResourceData where
  email : Option String := none
  apiKey : Option String := none
  apiToken : Option String := none
  apiUserServiceKey : Option String := none
  rps : Option Int := none
  retries : Option Int := none
  minBackoff : Option Int := none
  maxBackoff : Option Int := none
  accountID : Option String := none
  apiHostname : Option String := none
  apiBasePath : Option String := none
  apiClientLogging : Option Bool := none
  deriving DecidableEq, Repr

/-- `d.Get(key).(string)`: the value if set, else the zero value `""`. -/
def getString (o : Option String) : String := o.getD ""

/-- `d.GetOk(key)` for a string field: ok iff the field is set to a value
different from the zero value `""`. -/
def getOkString (o : Option String) : Option String :=
  match o with
  | some v => if v = "" then none else some v
  | none => none

/-- `d.GetOk(key)` for an int field: ok iff the field is set to a value
different from the zero value `0`. -/
def getOkInt (o : Option Int) : Option Int :=
  match o with
  | some v => if v = 0 then none else some v
  | none => none

/-- `baseHostname` resolution: explicit value when non-empty, else the
environment lookup with the built-in default. -/
def resolveBaseHostname (env : Env) (d : ResourceData) : String :=
  if getString d.apiHostname ≠ "" then getString d.apiHostname
  else getDefaultFromEnv env apiHostnameEnvVarKey apiHostnameDefault

/-- `basePath` resolution. -/
def resolveBasePath (env : Env) (d : ResourceData) : String :=
  if getString d.apiBasePath ≠ "" then getString d.apiBasePath
  else getDefaultFromEnv env apiBasePathEnvVarKey apiBasePathDefault

/-- `rps` resolution: `GetOk` value, else `ParseInt` of the environment
lookup (error discarded). -/
def resolveRPS (env : Env) (d : ResourceData) : Int :=
  match getOkInt d.rps with
  | some v => v
  | none => goParseInt64 (getDefaultFromEnv env rpsEnvVarKey rpsDefault)

/-- `retries` resolution. -/
def resolveRetries (env : Env) (d : ResourceData) : Int :=
  match getOkInt d.retries with
  | some v => v
  | none => goParseInt64 (getDefaultFromEnv env retriesEnvVarKey retriesDefault)

/-- `minBackOff` resolution. -/
def resolveMinBackOff (env : Env) (d : ResourceData) : Int :=
  match getOkInt d.minBackoff with
  | some v => v
  | none => goParseInt64 (getDefaultFromEnv env minimumBackoffEnvVar minimumBackoffDefault)

/-- `maxBackOff` resolution. -/
def resolveMaxBackOff (env : Env) (d : ResourceData) : Int :=
  match getOkInt d.maxBackoff with
  | some v => v
  | none => goParseInt64 (getDefaultFromEnv env maximumBackoffEnvVarKey maximumBackoffDefault)

/-- `apiToken` resolution: `GetOk` value, else environment with empty fallback. -/
def resolveAPIToken (env : Env) (d : ResourceData) : String :=
  match getOkString d.apiToken with
  | some v => v
  | none => getDefaultFromEnv env apiTokenEnvVarKey ""

/-- `apiKey` resolution. -/
def resolveAPIKey (env : Env) (d : ResourceData) : String :=
  match getOkString d.apiKey with
  | some v => v
  | none => getDefaultFromEnv env apiKeyEnvVarKey ""

/-- `email` resolution. -/
def resolveEmail (env : Env) (d : ResourceData) : String :=
  match getOkString d.email with
  | some v => v
  | none => getDefaultFromEnv env emailEnvVarKey ""

/-- `apiUserServiceKey` resolution. -/
def resolveAPIUserServiceKey (env : Env) (d : ResourceData) : String :=
  match getOkString d.apiUserServiceKey with
  | some v => v
  | none => getDefaultFromEnv env apiUserServiceKeyEnvVarKey ""

/-- `accountID` resolution. -/
def resolveAccountID (env : Env) (d : ResourceData) : String :=
  match getOkString d.accountID with
  | some v => v
  | none => getDefaultFromEnv env accountIDEnvVarKey ""

/-- The sdkv2 `configure` function (provider.go). `debugFlag` stands for
`logging.IsDebugOrHigher()`; the version strings are `p.TerraformVersion`,
`meta.SDKVersionString()` and the provider `version` argument. `Config.Client`
is not under src/ and is modelled from the spec as pure assembly returning the
configured client, so the result is the final `Config` or the diagnostics. -/
def configure (env : Env) (debugFlag : Bool)
    (terraformVersion sdkVersion version : String) (d : ResourceData) :
    Except (List Diagnostic) Config :=
  let baseHostname := resolveBaseHostname env d
  let basePath := resolveBasePath env d
  let baseURL := ClientOption.baseURL ("https://" ++ baseHostname ++ basePath)
  let rps := resolveRPS env d
  let limitOpt := ClientOption.usingRateLimit rps
  let retries := resolveRetries env d
  let minBackOff := resolveMinBackOff env d
  let maxBackOff := resolveMaxBackOff env d
  if retries > strconvIntSize then
    .error [{ summary := tooLargeMsg retriesSchemaKey retries }]
  else if minBackOff > strconvIntSize then
    .error [{ summary := tooLargeMsg minimumBackoffSchemaKey minBackOff }]
  else if maxBackOff > strconvIntSize then
    .error [{ summary := tooLargeMsg maximumBackoffSchemaKey maxBackOff }]
  else
    let retryOpt := ClientOption.usingRetryPolicy retries minBackOff maxBackOff
    let options := [limitOpt, retryOpt, baseURL] ++ [ClientOption.debug debugFlag] ++
      [ClientOption.userAgent (userAgentDefault terraformVersion sdkVersion version)]
    let config : Config := { options := options }
    let apiToken := resolveAPIToken env d
    let config := if apiToken ≠ "" then { config with apiToken := apiToken } else config
    let apiKey := resolveAPIKey env d
    let step : Except (List Diagnostic) Config :=
      if apiKey ≠ "" then
        let email := resolveEmail env d
        if email = "" then .error [{ summary := emailNotSetSummary }]
        else .ok { config with apiKey := apiKey, email := email }
      else .ok config
    match step with
    | .error ds => .error ds
    | .ok config =>
      let apiUserServiceKey := resolveAPIUserServiceKey env d
      let config :=
        if apiUserServiceKey ≠ "" then { config with apiUserServiceKey := apiUserServiceKey }
        else config
      if apiKey = "" ∧ apiToken = "" ∧ apiUserServiceKey = "" then
        .error [{ summary := mustProvideMsg }]
      else
        let accountID := resolveAccountID env d
        let options :=
          if accountID ≠ "" then options ++ [ClientOption.usingAccount accountID]
          else options
        .ok { config with options := options }

end Cloudflare.Sdkv2

namespace Cloudflare.Framework

open Cloudflare

/-- `CloudflareProviderModel` from the framework provider: `types.String` /
`types.Int64` values are null (`none`) or known (`some`). -/
structure CloudflareProviderModel where
  apiKey : Option String := none
  apiUserServiceKey : Option String := none
  email : Option String := none
  minBackOff : Option Int := none
  rps : Option Int := none
  accountID : Option String := none
  apiBasePath : Option String := none
  apiToken : Option String := none
  retries : Option Int := none
  maxBackoff : Option Int := none
  apiClientLogging : Option Bool := none
  apiHostname : Option String := none
  deriving DecidableEq, Repr

/-- `types.String.ValueString()`: the value, or `""` when null. -/
def valueString (o : Option String) : String := o.getD ""

/-- `types.Int64.ValueInt64()`: the value, or `0` when null. -/
def valueInt64 (o : Option Int) : Int := o.getD 0

/-- `baseHostname` resolution (value-non-empty check, like sdkv2). -/
def resolveBaseHostname (env : Env) (data : CloudflareProviderModel) : String :=
  if valueString data.apiHostname ≠ "" then valueString data.apiHostname
  else getDefaultFromEnv env apiHostnameEnvVarKey apiHostnameDefault

/-- `basePath` resolution. -/
def resolveBasePath (env : Env) (data : CloudflareProviderModel) : String :=
  if valueString data.apiBasePath ≠ "" then valueString data.apiBasePath
  else getDefaultFromEnv env apiBasePathEnvVarKey apiBasePathDefault

/-- `rps` resolution: explicit value when the attribute is not null, else
`ParseInt` of the environment lookup. -/
def resolveRPS (env : Env) (data : CloudflareProviderModel) : Int :=
  match data.rps with
  | some v => v
  | none => goParseInt64 (getDefaultFromEnv env rpsEnvVarKey rpsDefault)

/-- `retries` resolution. -/
def resolveRetries (env : Env) (data : CloudflareProviderModel) : Int :=
  match data.retries with
  | some v => v
  | none => goParseInt64 (getDefaultFromEnv env retriesEnvVarKey retriesDefault)

/-- `minBackOff` resolution as the source writes it: the branch keys on
`data.MinBackOff` being non-null but reads `data.MaxBackoff.ValueInt64()`. -/
def resolveMinBackOff (env : Env) (data : CloudflareProviderModel) : Int :=
  match data.minBackOff with
  | some _ => valueInt64 data.maxBackoff
  | none => goParseInt64 (getDefaultFromEnv env minimumBackoffEnvVar minimumBackoffDefault)

/-- `maxBackOff` resolution as the source writes it: the branch also keys on
`data.MinBackOff` being non-null and reads `data.MaxBackoff.ValueInt64()`. -/
def resolveMaxBackOff (env : Env) (data : CloudflareProviderModel) : Int :=
  match data.minBackOff with
  | some _ => valueInt64 data.maxBackoff
  | none => goParseInt64 (getDefaultFromEnv env maximumBackoffEnvVarKey maximumBackoffDefault)

/-- `apiToken` resolution. -/
def resolveAPIToken (env : Env) (data : CloudflareProviderModel) : String :=
  match data.apiToken with
  | some v => v
  | none => getDefaultFromEnv env apiTokenEnvVarKey ""

/-- `apiKey` resolution. -/
def resolveAPIKey (env : Env) (data : CloudflareProviderModel) : String :=
  match data.apiKey with
  | some v => v
  | none => getDefaultFromEnv env apiKeyEnvVarKey ""

/-- `email` resolution. -/
def resolveEmail (env : Env) (data : CloudflareProviderModel) : String :=
  match data.email with
  | some v => v
  | none => getDefaultFromEnv env emailEnvVarKey ""

/-- `apiUserServiceKey` resolution. -/
def resolveAPIUserServiceKey (env : Env) (data : CloudflareProviderModel) : String :=
  match data.apiUserServiceKey with
  | some v => v
  | none => getDefaultFromEnv env apiUserServiceKeyEnvVarKey ""

/-- `accountID` resolution. -/
def resolveAccountID (env : Env) (data : CloudflareProviderModel) : String :=
  match data.accountID with
  | some v => v
  | none => getDefaultFromEnv env accountIDEnvVarKey ""

/-- The framework provider's `Configure` (provider.go). Diagnostics mirror
`resp.Diagnostics.AddError(summary, detail)`; on success `Config.Client`
(modelled from the spec as pure assembly) yields the configured client. -/
def Configure (env : Env) (debugFlag : Bool)
    (terraformVersion sdkVersion version : String) (data : CloudflareProviderModel) :
    Except (List Diagnostic) Config :=
  let baseHostname := resolveBaseHostname env data
  let basePath := resolveBasePath env data
  let baseURL := ClientOption.baseURL ("https://" ++ baseHostname ++ basePath)
  let rps := resolveRPS env data
  let limitOpt := ClientOption.usingRateLimit rps
  let retries := resolveRetries env data
  let minBackOff := resolveMinBackOff env data
  let maxBackOff := resolveMaxBackOff env data
  if retries > strconvIntSize then
    .error [{ summary := tooLargeMsg retriesSchemaKey retries,
              detail := tooLargeMsg retriesSchemaKey retries }]
  else if minBackOff > strconvIntSize then
    .error [{ summary := tooLargeMsg minimumBackoffSchemaKey minBackOff,
              detail := tooLargeMsg minimumBackoffSchemaKey minBackOff }]
  else if maxBackOff > strconvIntSize then
    .error [{ summary := tooLargeMsg maximumBackoffSchemaKey maxBackOff,
              detail := tooLargeMsg maximumBackoffSchemaKey maxBackOff }]
  else
    let retryOpt := ClientOption.usingRetryPolicy retries minBackOff maxBackOff
    let options := [limitOpt, retryOpt, baseURL] ++ [ClientOption.debug debugFlag] ++
      [ClientOption.userAgent (userAgentDefault terraformVersion sdkVersion version)]
    let config : Config := { options := options }
    let apiToken := resolveAPIToken env data
    let config := if apiToken ≠ "" then { config with apiToken := apiToken } else config
    let apiKey := resolveAPIKey env data
    let step : Except (List Diagnostic) Config :=
      if apiKey ≠ "" then
        let email := resolveEmail env data
        if email = "" then
          .error [{ summary := emailNotSetSummary, detail := emailRequiredDetail }]
        else .ok { config with apiKey := apiKey, email := email }
      else .ok config
    match step with
    | .error ds => .error ds
    | .ok config =>
      let apiUserServiceKey := resolveAPIUserServiceKey env data
      let config :=
        if apiUserServiceKey ≠ "" then { config with apiUserServiceKey := apiUserServiceKey }
        else config
      if apiKey = "" ∧ apiToken = "" ∧ apiUserServiceKey = "" then
        .error [{ summary := mustProvideMsg, detail := mustProvideMsg }]
      else
        let accountID := resolveAccountID env data
        let options :=
          if accountID ≠ "" then options ++ [ClientOption.usingAccount accountID]
          else options
        .ok { config with options := options }

end Cloudflare.Framework

namespace Cloudflare

/-! ## Concrete inputs used by counterexamples and witnesses -/

/-- The empty environment: every variable unset. -/
def envEmpty : Env := fun _ => none

/-- An environment holding exactly the given variable bindings. -/
def envOfList (l : List (String × String)) : Env :=
  fun k => (l.find? (fun p => p.fst == k)).map Prod.snd

/-- A fully-unset sdkv2 configuration block. -/
def rdEmpty : Sdkv2.ResourceData := {}

/-- A fully-unset framework configuration model. -/
def mEmpty : Framework.CloudflareProviderModel := {}

/-! ## Success-shape lemmas

When the three bound checks pass, at least one credential resolves non-empty
and the email co-requirement holds, both Configure functions return a client;
these lemmas give the exact shape of the result. -/

/-- The five options every constructed sdkv2 client carries, in attachment
order. -/
def Sdkv2.baseOptions (env : Env) (debugFlag : Bool)
    (terraformVersion sdkVersion version : String) (d : Sdkv2.ResourceData) :
    List ClientOption :=
  [ClientOption.usingRateLimit (Sdkv2.resolveRPS env d),
   ClientOption.usingRetryPolicy (Sdkv2.resolveRetries env d)
     (Sdkv2.resolveMinBackOff env d) (Sdkv2.resolveMaxBackOff env d),
   ClientOption.baseURL
     ("https://" ++ Sdkv2.resolveBaseHostname env d ++ Sdkv2.resolveBasePath env d),
   ClientOption.debug debugFlag,
   ClientOption.userAgent (userAgentDefault terraformVersion sdkVersion version)]

theorem Sdkv2.configure_success (env : Env) (dbg : Bool) (tf sv pv : String)
    (d : Sdkv2.ResourceData)
    (h1 : Sdkv2.resolveRetries env d ≤ strconvIntSize)
    (h2 : Sdkv2.resolveMinBackOff env d ≤ strconvIntSize)
    (h3 : Sdkv2.resolveMaxBackOff env d ≤ strconvIntSize)
    (hcred : ¬(Sdkv2.resolveAPIKey env d = "" ∧ Sdkv2.resolveAPIToken env d = "" ∧
      Sdkv2.resolveAPIUserServiceKey env d = ""))
    (hmail : Sdkv2.resolveAPIKey env d ≠ "" → Sdkv2.resolveEmail env d ≠ "") :
    Sdkv2.configure env dbg tf sv pv d = .ok
      { options := Sdkv2.baseOptions env dbg tf sv pv d ++
          (if Sdkv2.resolveAccountID env d ≠ "" then
            [ClientOption.usingAccount (Sdkv2.resolveAccountID env d)] else []),
        apiToken := Sdkv2.resolveAPIToken env d,
        apiKey := Sdkv2.resolveAPIKey env d,
        email := if Sdkv2.resolveAPIKey env d ≠ "" then Sdkv2.resolveEmail env d else "",
        apiUserServiceKey := Sdkv2.resolveAPIUserServiceKey env d } := by
  by_cases hk : Sdkv2.resolveAPIKey env d = "" <;>
    by_cases ht : Sdkv2.resolveAPIToken env d = "" <;>
      by_cases hu : Sdkv2.resolveAPIUserServiceKey env d = "" <;>
        by_cases ha : Sdkv2.resolveAccountID env d = "" <;>
          simp_all [Sdkv2.configure, Sdkv2.baseOptions] <;>
            rw [if_neg (not_lt.mpr h1), if_neg (not_lt.mpr h2), if_neg (not_lt.mpr h3)]

/-- The five options every constructed framework client carries, in attachment
order. -/
def Framework.baseOptions (env : Env) (debugFlag : Bool)
    (terraformVersion sdkVersion version : String)
    (data : Framework.CloudflareProviderModel) : List ClientOption :=
  [ClientOption.usingRateLimit (Framework.resolveRPS env data),
   ClientOption.usingRetryPolicy (Framework.resolveRetries env data)
     (Framework.resolveMinBackOff env data) (Framework.resolveMaxBackOff env data),
   ClientOption.baseURL
     ("https://" ++ Framework.resolveBaseHostname env data ++
       Framework.resolveBasePath env data),
   ClientOption.debug debugFlag,
   ClientOption.userAgent (userAgentDefault terraformVersion sdkVersion version)]

theorem Framework.Configure_success (env : Env) (dbg : Bool) (tf sv pv : String)
    (data : Framework.CloudflareProviderModel)
    (h1 : Framework.resolveRetries env data ≤ strconvIntSize)
    (h2 : Framework.resolveMinBackOff env data ≤ strconvIntSize)
    (h3 : Framework.resolveMaxBackOff env data ≤ strconvIntSize)
    (hcred : ¬(Framework.resolveAPIKey env data = "" ∧
      Framework.resolveAPIToken env data = "" ∧
      Framework.resolveAPIUserServiceKey env data = ""))
    (hmail : Framework.resolveAPIKey env data ≠ "" → Framework.resolveEmail env data ≠ "") :
    Framework.Configure env dbg tf sv pv data = .ok
      { options := Framework.baseOptions env dbg tf sv pv data ++
          (if Framework.resolveAccountID env data ≠ "" then
            [ClientOption.usingAccount (Framework.resolveAccountID env data)] else []),
        apiToken := Framework.resolveAPIToken env data,
        apiKey := Framework.resolveAPIKey env data,
        email := if Framework.resolveAPIKey env data ≠ "" then
          Framework.resolveEmail env data else "",
        apiUserServiceKey := Framework.resolveAPIUserServiceKey env data } := by
  by_cases hk : Framework.resolveAPIKey env data = "" <;>
    by_cases ht : Framework.resolveAPIToken env data = "" <;>
      by_cases hu : Framework.resolveAPIUserServiceKey env data = "" <;>
        by_cases ha : Framework.resolveAccountID env data = "" <;>
          simp_all [Framework.Configure, Framework.baseOptions] <;>
            rw [if_neg (not_lt.mpr h1), if_neg (not_lt.mpr h2), if_neg (not_lt.mpr h3)]

end Cloudflare

namespace Cloudflare

/-- Environment supplying two credential modes at once (token and user
service key), everything else unset. -/
def envTwoCreds : Env :=
  envOfList [(apiTokenEnvVarKey, "test-token"), (apiUserServiceKeyEnvVarKey, "v1.0-key")]

/-- Environment supplying only the api key, in particular no email. -/
def envApiKeyOnly : Env := envOfList [(apiKeyEnvVarKey, "somekey")]

/-- Environment supplying only the api token. -/
def envTokenOnly : Env := envOfList [(apiTokenEnvVarKey, "test-token")]

/-- Environment setting only the rps variable to "5". -/
def envRpsFive : Env := envOfList [(rpsEnvVarKey, "5")]

/-- Environment setting only the min-backoff variable to "7". -/
def envMinBackoffSeven : Env := envOfList [(minimumBackoffEnvVar, "7")]

/-- Framework model with only `min_backoff` explicitly set (to 5). -/
def mMinBackoffFive : Framework.CloudflareProviderModel := { minBackOff := some 5 }

/-- Claim C1, counterexample: with the api_token and api_user_service_key
environment variables both resolving non-empty (two credential modes present
simultaneously), neither Configure function fails — both return a client —
contradicting the claim that any input with two or more non-empty resolved
credentials fails with a diagnostic and returns no client. -/
theorem claim1_counterexample :
    Sdkv2.resolveAPIToken envTwoCreds rdEmpty ≠ "" ∧
    Sdkv2.resolveAPIUserServiceKey envTwoCreds rdEmpty ≠ "" ∧
    (Sdkv2.configure envTwoCreds false "1.4.0" "2.24.1" "dev" rdEmpty).isOk = true ∧
    Framework.resolveAPIToken envTwoCreds mEmpty ≠ "" ∧
    Framework.resolveAPIUserServiceKey envTwoCreds mEmpty ≠ "" ∧
    (Framework.Configure envTwoCreds false "1.4.0" "2.24.1" "dev" mEmpty).isOk = true := by
  decide

/-- Claim C2, code bug (framework provider): with `min_backoff` explicitly 5,
`max_backoff` null and the environment empty, the framework Configure resolves
`minBackOff` and `maxBackOff` to `max_backoff`'s null value 0 instead of the
explicit 5, and ignores the min-backoff environment variable even when it is
set; the sdkv2 provider resolves the same input to 5 as the precedence claim
requires. -/
theorem claim2_framework_backoff_bug :
    mMinBackoffFive.minBackOff = some 5 ∧
    mMinBackoffFive.maxBackoff = none ∧
    Framework.resolveMinBackOff envEmpty mMinBackoffFive = 0 ∧
    Framework.resolveMaxBackOff envEmpty mMinBackoffFive = 0 ∧
    Framework.resolveMinBackOff envMinBackoffSeven mMinBackoffFive = 0 ∧
    Sdkv2.resolveMinBackOff envEmpty { rdEmpty with minBackoff := some 5 } = 5 := by
  decide

/-- Claim C3, counterexample: with api_key resolving non-empty (from its
environment variable) and email resolving empty, the sdkv2 configure fails
with the diagnostic `"email" is not set correctly`, whose text does not
contain the api_key field name — contradicting the claim that the diagnostic
names both fields. -/
theorem claim3_counterexample :
    Sdkv2.resolveAPIKey envApiKeyOnly rdEmpty ≠ "" ∧
    Sdkv2.resolveEmail envApiKeyOnly rdEmpty = "" ∧
    Sdkv2.configure envApiKeyOnly false "1.4.0" "2.24.1" "dev" rdEmpty =
      .error [{ summary := emailNotSetSummary }] ∧
    containsSubstr emailNotSetSummary apiKeySchemaKey = false := by
  decide

/-- Claim C5, counterexample: an input whose resolved rps (1000000) far
exceeds the platform integer-width bound is accepted: configure returns a
client and performs no bound check on rps, contradicting the claim that
resolution fails for rps above the bound. -/
theorem claim5_counterexample :
    Sdkv2.resolveRPS envTokenOnly { rdEmpty with rps := some 1000000 } = 1000000 ∧
    strconvIntSize < 1000000 ∧
    (Sdkv2.configure envTokenOnly false "1.4.0" "2.24.1" "dev"
      { rdEmpty with rps := some 1000000 }).isOk = true ∧
    Framework.resolveRPS envTokenOnly { mEmpty with rps := some 1000000 } = 1000000 ∧
    (Framework.Configure envTokenOnly false "1.4.0" "2.24.1" "dev"
      { mEmpty with rps := some 1000000 }).isOk = true := by
  decide

/-- Claim C6, counterexample: in the sdkv2 provider an explicitly supplied
zero is not distinguishable from unset: with `rps` explicitly set to 0 and the
rps environment variable set to "5", resolution falls back to the environment
and yields 5 instead of the explicit 0. -/
theorem claim6_counterexample :
    ({ rdEmpty with rps := some 0 } : Sdkv2.ResourceData).rps = some 0 ∧
    Sdkv2.resolveRPS envRpsFive { rdEmpty with rps := some 0 } = 5 := by
  decide

end Cloudflare

namespace Cloudflare

/-- Claim C1 (amended): when ZERO of the three credential fields resolve
non-empty (and the numeric bound checks pass, which are evaluated first),
both Configure functions fail with the diagnostic listing all three field
names — `must provide one of "api_key", "api_token" or
"api_user_service_key".` — and return no client. The two-or-more direction of
the original claim is false (see the counterexample). -/
theorem claim1_zero_credentials (env : Env) (dbg : Bool) (tf sv pv : String)
    (d : Sdkv2.ResourceData) (m : Framework.CloudflareProviderModel)
    (h1 : Sdkv2.resolveRetries env d ≤ strconvIntSize)
    (h2 : Sdkv2.resolveMinBackOff env d ≤ strconvIntSize)
    (h3 : Sdkv2.resolveMaxBackOff env d ≤ strconvIntSize)
    (hk : Sdkv2.resolveAPIKey env d = "")
    (ht : Sdkv2.resolveAPIToken env d = "")
    (hu : Sdkv2.resolveAPIUserServiceKey env d = "")
    (g1 : Framework.resolveRetries env m ≤ strconvIntSize)
    (g2 : Framework.resolveMinBackOff env m ≤ strconvIntSize)
    (g3 : Framework.resolveMaxBackOff env m ≤ strconvIntSize)
    (gk : Framework.resolveAPIKey env m = "")
    (gt : Framework.resolveAPIToken env m = "")
    (gu : Framework.resolveAPIUserServiceKey env m = "") :
    Sdkv2.configure env dbg tf sv pv d = .error [{ summary := mustProvideMsg }] ∧
    Framework.Configure env dbg tf sv pv m =
      .error [{ summary := mustProvideMsg, detail := mustProvideMsg }] := by
  constructor
  · simp only [Sdkv2.configure]
    rw [if_neg (not_lt.mpr h1), if_neg (not_lt.mpr h2), if_neg (not_lt.mpr h3)]
    simp [hk, ht, hu]
  · simp only [Framework.Configure]
    rw [if_neg (not_lt.mpr g1), if_neg (not_lt.mpr g2), if_neg (not_lt.mpr g3)]
    simp [gk, gt, gu]

/-- Witness for claim C1: the all-unset input with empty environment hits the
zero-credentials diagnostic in both providers. -/
theorem claim1_zero_credentials_witness :
    Sdkv2.configure envEmpty false "1.4.0" "2.24.1" "dev" rdEmpty =
      .error [{ summary := mustProvideMsg }] ∧
    Framework.Configure envEmpty false "1.4.0" "2.24.1" "dev" mEmpty =
      .error [{ summary := mustProvideMsg, detail := mustProvideMsg }] :=
  claim1_zero_credentials envEmpty false "1.4.0" "2.24.1" "dev" rdEmpty mEmpty
    (by decide) (by decide) (by decide) (by decide) (by decide) (by decide)
    (by decide) (by decide) (by decide) (by decide) (by decide) (by decide)

/-- Claim C3 (amended): when api_key resolves non-empty and email resolves
empty, both Configure functions fail and return no client; the framework
provider's diagnostic detail names both the email and api_key fields, while
the sdkv2 provider's diagnostic names only the email field. -/
theorem claim3_email_corequirement (env : Env) (dbg : Bool) (tf sv pv : String)
    (d : Sdkv2.ResourceData) (m : Framework.CloudflareProviderModel)
    (h1 : Sdkv2.resolveRetries env d ≤ strconvIntSize)
    (h2 : Sdkv2.resolveMinBackOff env d ≤ strconvIntSize)
    (h3 : Sdkv2.resolveMaxBackOff env d ≤ strconvIntSize)
    (hk : Sdkv2.resolveAPIKey env d ≠ "")
    (he : Sdkv2.resolveEmail env d = "")
    (g1 : Framework.resolveRetries env m ≤ strconvIntSize)
    (g2 : Framework.resolveMinBackOff env m ≤ strconvIntSize)
    (g3 : Framework.resolveMaxBackOff env m ≤ strconvIntSize)
    (gk : Framework.resolveAPIKey env m ≠ "")
    (ge : Framework.resolveEmail env m = "") :
    Sdkv2.configure env dbg tf sv pv d = .error [{ summary := emailNotSetSummary }] ∧
    Framework.Configure env dbg tf sv pv m =
      .error [{ summary := emailNotSetSummary, detail := emailRequiredDetail }] ∧
    containsSubstr emailNotSetSummary emailSchemaKey = true ∧
    containsSubstr emailRequiredDetail emailSchemaKey = true ∧
    containsSubstr emailRequiredDetail apiKeySchemaKey = true := by
  refine ⟨?_, ?_, by decide, by decide, by decide⟩
  · simp only [Sdkv2.configure]
    rw [if_neg (not_lt.mpr h1), if_neg (not_lt.mpr h2), if_neg (not_lt.mpr h3)]
    simp [hk, he]
  · simp only [Framework.Configure]
    rw [if_neg (not_lt.mpr g1), if_neg (not_lt.mpr g2), if_neg (not_lt.mpr g3)]
    simp [gk, ge]

/-- Witness for claim C3: api key supplied only through its environment
variable and no email anywhere. -/
theorem claim3_email_corequirement_witness :
    Sdkv2.configure envApiKeyOnly false "1.4.0" "2.24.1" "dev" rdEmpty =
      .error [{ summary := emailNotSetSummary }] ∧
    Framework.Configure envApiKeyOnly false "1.4.0" "2.24.1" "dev" mEmpty =
      .error [{ summary := emailNotSetSummary, detail := emailRequiredDetail }] ∧
    containsSubstr emailNotSetSummary emailSchemaKey = true ∧
    containsSubstr emailRequiredDetail emailSchemaKey = true ∧
    containsSubstr emailRequiredDetail apiKeySchemaKey = true :=
  claim3_email_corequirement envApiKeyOnly false "1.4.0" "2.24.1" "dev" rdEmpty mEmpty
    (by decide) (by decide) (by decide) (by decide) (by decide)
    (by decide) (by decide) (by decide) (by decide) (by decide)

/-- Claim C6 (amended): in the sdkv2 provider an explicitly supplied zero (for
int fields) or empty string (for string fields) behaves exactly like an unset
field — resolution falls back to environment/default. In the framework
provider the rps and retries fields and the credential and account fields use
a null check, so there the explicit zero or empty string is used as the
resolved value; the backoff fields do NOT honour an explicit zero — an
explicit `min_backoff = 0` resolves both backoffs to the `max_backoff`
field's value, and an explicit `max_backoff = 0` with `min_backoff` null is
ignored in favour of the environment/default — and the hostname and base-path
fields treat an explicit empty string as unset. -/
theorem claim6_explicit_zero (env : Env) (d : Sdkv2.ResourceData)
    (m : Framework.CloudflareProviderModel) :
    Sdkv2.resolveRPS env { d with rps := some 0 } =
      Sdkv2.resolveRPS env { d with rps := none } ∧
    Sdkv2.resolveRetries env { d with retries := some 0 } =
      Sdkv2.resolveRetries env { d with retries := none } ∧
    Sdkv2.resolveMinBackOff env { d with minBackoff := some 0 } =
      Sdkv2.resolveMinBackOff env { d with minBackoff := none } ∧
    Sdkv2.resolveMaxBackOff env { d with maxBackoff := some 0 } =
      Sdkv2.resolveMaxBackOff env { d with maxBackoff := none } ∧
    Sdkv2.resolveAPIToken env { d with apiToken := some "" } =
      Sdkv2.resolveAPIToken env { d with apiToken := none } ∧
    Sdkv2.resolveAPIKey env { d with apiKey := some "" } =
      Sdkv2.resolveAPIKey env { d with apiKey := none } ∧
    Sdkv2.resolveEmail env { d with email := some "" } =
      Sdkv2.resolveEmail env { d with email := none } ∧
    Sdkv2.resolveAPIUserServiceKey env { d with apiUserServiceKey := some "" } =
      Sdkv2.resolveAPIUserServiceKey env { d with apiUserServiceKey := none } ∧
    Sdkv2.resolveAccountID env { d with accountID := some "" } =
      Sdkv2.resolveAccountID env { d with accountID := none } ∧
    Sdkv2.resolveBaseHostname env { d with apiHostname := some "" } =
      Sdkv2.resolveBaseHostname env { d with apiHostname := none } ∧
    Sdkv2.resolveBasePath env { d with apiBasePath := some "" } =
      Sdkv2.resolveBasePath env { d with apiBasePath := none } ∧
    Framework.resolveRPS env { m with rps := some 0 } = 0 ∧
    Framework.resolveRetries env { m with retries := some 0 } = 0 ∧
    Framework.resolveMinBackOff env { m with minBackOff := some 0 } =
      Framework.valueInt64 m.maxBackoff ∧
    Framework.resolveMaxBackOff env { m with minBackOff := some 0 } =
      Framework.valueInt64 m.maxBackoff ∧
    Framework.resolveMinBackOff env { m with minBackOff := none, maxBackoff := some 0 } =
      goParseInt64 (getDefaultFromEnv env minimumBackoffEnvVar minimumBackoffDefault) ∧
    Framework.resolveMaxBackOff env { m with minBackOff := none, maxBackoff := some 0 } =
      goParseInt64 (getDefaultFromEnv env maximumBackoffEnvVarKey maximumBackoffDefault) ∧
    Framework.resolveAPIToken env { m with apiToken := some "" } = "" ∧
    Framework.resolveAPIKey env { m with apiKey := some "" } = "" ∧
    Framework.resolveEmail env { m with email := some "" } = "" ∧
    Framework.resolveAPIUserServiceKey env { m with apiUserServiceKey := some "" } = "" ∧
    Framework.resolveAccountID env { m with accountID := some "" } = "" ∧
    Framework.resolveBaseHostname env { m with apiHostname := some "" } =
      Framework.resolveBaseHostname env { m with apiHostname := none } ∧
    Framework.resolveBasePath env { m with apiBasePath := some "" } =
      Framework.resolveBasePath env { m with apiBasePath := none } :=
  ⟨rfl, rfl, rfl, rfl, rfl, rfl, rfl, rfl, rfl, rfl, rfl, rfl, rfl, rfl, rfl, rfl,
    rfl, rfl, rfl, rfl, rfl, rfl, rfl, rfl⟩

/-- Claim C7: provider configuration is a pure function of its declared
inputs (explicit configuration, environment, debug flag, version strings):
two calls with identical inputs produce identical results, so every resolved
field of the resulting configuration coincides between independent calls. -/
theorem claim7_deterministic (env1 env2 : Env) (dbg : Bool) (tf sv pv : String)
    (d1 d2 : Sdkv2.ResourceData) (m1 m2 : Framework.CloudflareProviderModel)
    (henv : env1 = env2) (hd : d1 = d2) (hm : m1 = m2) :
    Sdkv2.configure env1 dbg tf sv pv d1 = Sdkv2.configure env2 dbg tf sv pv d2 ∧
    Framework.Configure env1 dbg tf sv pv m1 = Framework.Configure env2 dbg tf sv pv m2 := by
  subst henv; subst hd; subst hm; exact ⟨rfl, rfl⟩

/-- Witness for claim C7 at a concrete input. -/
theorem claim7_deterministic_witness :
    Sdkv2.configure envTokenOnly false "1.4.0" "2.24.1" "dev" rdEmpty =
      Sdkv2.configure envTokenOnly false "1.4.0" "2.24.1" "dev" rdEmpty ∧
    Framework.Configure envTokenOnly false "1.4.0" "2.24.1" "dev" mEmpty =
      Framework.Configure envTokenOnly false "1.4.0" "2.24.1" "dev" mEmpty :=
  claim7_deterministic envTokenOnly envTokenOnly false "1.4.0" "2.24.1" "dev"
    rdEmpty rdEmpty mEmpty mEmpty rfl rfl rfl

/-- Claim C10: in the framework Configure both backoff branches key on
`min_backoff` being non-null and both read the `max_backoff` field: when
`min_backoff` is set, both resolved backoffs equal `max_backoff`'s value (0
when null) independently of the environment and of the explicit `min_backoff`
value; when `min_backoff` is null, each backoff falls back to its own
environment variable/default and an explicitly set `max_backoff` is ignored. -/
theorem claim10_framework_backoff_coupling (env env2 : Env)
    (m : Framework.CloudflareProviderModel) :
    (m.minBackOff.isSome = true →
      Framework.resolveMinBackOff env m = Framework.valueInt64 m.maxBackoff ∧
      Framework.resolveMaxBackOff env m = Framework.valueInt64 m.maxBackoff ∧
      (m.maxBackoff = none →
        Framework.resolveMinBackOff env m = 0 ∧ Framework.resolveMaxBackOff env m = 0) ∧
      Framework.resolveMinBackOff env m = Framework.resolveMinBackOff env2 m ∧
      Framework.resolveMaxBackOff env m = Framework.resolveMaxBackOff env2 m) ∧
    (m.minBackOff = none →
      Framework.resolveMinBackOff env m =
        goParseInt64 (getDefaultFromEnv env minimumBackoffEnvVar minimumBackoffDefault) ∧
      Framework.resolveMaxBackOff env m =
        goParseInt64 (getDefaultFromEnv env maximumBackoffEnvVarKey maximumBackoffDefault) ∧
      ∀ w, Framework.resolveMinBackOff env { m with maxBackoff := some w } =
          Framework.resolveMinBackOff env m ∧
        Framework.resolveMaxBackOff env { m with maxBackoff := some w } =
          Framework.resolveMaxBackOff env m) := by
  constructor
  · intro h
    match hm : m.minBackOff with
    | some v =>
      refine ⟨by simp [Framework.resolveMinBackOff, hm],
        by simp [Framework.resolveMaxBackOff, hm], ?_,
        by simp [Framework.resolveMinBackOff, hm],
        by simp [Framework.resolveMaxBackOff, hm]⟩
      intro hmx
      simp [Framework.resolveMinBackOff, Framework.resolveMaxBackOff,
        Framework.valueInt64, hm, hmx]
    | none => simp [hm] at h
  · intro h
    simp [Framework.resolveMinBackOff, Framework.resolveMaxBackOff, h]

/-- Witness for claim C10: both arms at concrete inputs (min_backoff set to 5
with max_backoff null, and the all-null model). -/
theorem claim10_framework_backoff_coupling_witness :
    Framework.resolveMinBackOff envEmpty mMinBackoffFive =
      Framework.valueInt64 mMinBackoffFive.maxBackoff ∧
    Framework.resolveMinBackOff envEmpty mEmpty =
      goParseInt64 (getDefaultFromEnv envEmpty minimumBackoffEnvVar minimumBackoffDefault) := by
  constructor
  · exact ((claim10_framework_backoff_coupling envEmpty envMinBackoffSeven
      mMinBackoffFive).1 (by decide)).1
  · exact ((claim10_framework_backoff_coupling envEmpty envMinBackoffSeven
      mEmpty).2 (by decide)).1

end Cloudflare

namespace Cloudflare

/-- Claim C4: whenever any of the resolved retries, min_backoff or max_backoff
values exceeds `strconv.IntSize` (the platform integer-width bound), both
Configure functions fail before any client is constructed, with a single
diagnostic whose message is the field's too-large message — a string made of
the offending field name and the resolved numeric value. -/
theorem claim4_numeric_bounds (env : Env) (dbg : Bool) (tf sv pv : String)
    (d : Sdkv2.ResourceData) (m : Framework.CloudflareProviderModel)
    (h : strconvIntSize < Sdkv2.resolveRetries env d ∨
      strconvIntSize < Sdkv2.resolveMinBackOff env d ∨
      strconvIntSize < Sdkv2.resolveMaxBackOff env d)
    (g : strconvIntSize < Framework.resolveRetries env m ∨
      strconvIntSize < Framework.resolveMinBackOff env m ∨
      strconvIntSize < Framework.resolveMaxBackOff env m) :
    (∃ f v, ((f = retriesSchemaKey ∧ v = Sdkv2.resolveRetries env d ∧ strconvIntSize < v) ∨
        (f = minimumBackoffSchemaKey ∧ v = Sdkv2.resolveMinBackOff env d ∧
          strconvIntSize < v) ∨
        (f = maximumBackoffSchemaKey ∧ v = Sdkv2.resolveMaxBackOff env d ∧
          strconvIntSize < v)) ∧
      Sdkv2.configure env dbg tf sv pv d = .error [{ summary := tooLargeMsg f v }]) ∧
    (∃ f v, ((f = retriesSchemaKey ∧ v = Framework.resolveRetries env m ∧
          strconvIntSize < v) ∨
        (f = minimumBackoffSchemaKey ∧ v = Framework.resolveMinBackOff env m ∧
          strconvIntSize < v) ∨
        (f = maximumBackoffSchemaKey ∧ v = Framework.resolveMaxBackOff env m ∧
          strconvIntSize < v)) ∧
      Framework.Configure env dbg tf sv pv m =
        .error [{ summary := tooLargeMsg f v, detail := tooLargeMsg f v }]) := by
  constructor
  · by_cases hr : strconvIntSize < Sdkv2.resolveRetries env d
    · refine ⟨retriesSchemaKey, Sdkv2.resolveRetries env d, Or.inl ⟨rfl, rfl, hr⟩, ?_⟩
      simp only [Sdkv2.configure]
      rw [if_pos hr]
    · by_cases hmn : strconvIntSize < Sdkv2.resolveMinBackOff env d
      · refine ⟨minimumBackoffSchemaKey, Sdkv2.resolveMinBackOff env d,
          Or.inr (Or.inl ⟨rfl, rfl, hmn⟩), ?_⟩
        simp only [Sdkv2.configure]
        rw [if_neg hr, if_pos hmn]
      · have hmx : strconvIntSize < Sdkv2.resolveMaxBackOff env d := by
          rcases h with h | h | h
          · exact absurd h hr
          · exact absurd h hmn
          · exact h
        refine ⟨maximumBackoffSchemaKey, Sdkv2.resolveMaxBackOff env d,
          Or.inr (Or.inr ⟨rfl, rfl, hmx⟩), ?_⟩
        simp only [Sdkv2.configure]
        rw [if_neg hr, if_neg hmn, if_pos hmx]
  · by_cases hr : strconvIntSize < Framework.resolveRetries env m
    · refine ⟨retriesSchemaKey, Framework.resolveRetries env m, Or.inl ⟨rfl, rfl, hr⟩, ?_⟩
      simp only [Framework.Configure]
      rw [if_pos hr]
    · by_cases hmn : strconvIntSize < Framework.resolveMinBackOff env m
      · refine ⟨minimumBackoffSchemaKey, Framework.resolveMinBackOff env m,
          Or.inr (Or.inl ⟨rfl, rfl, hmn⟩), ?_⟩
        simp only [Framework.Configure]
        rw [if_neg hr, if_pos hmn]
      · have hmx : strconvIntSize < Framework.resolveMaxBackOff env m := by
          rcases g with g | g | g
          · exact absurd g hr
          · exact absurd g hmn
          · exact g
        refine ⟨maximumBackoffSchemaKey, Framework.resolveMaxBackOff env m,
          Or.inr (Or.inr ⟨rfl, rfl, hmx⟩), ?_⟩
        simp only [Framework.Configure]
        rw [if_neg hr, if_neg hmn, if_pos hmx]

/-- A configuration block with `retries` explicitly 100, above the 64 bound. -/
def rdRetriesBig : Sdkv2.ResourceData := { retries := some 100 }

/-- A framework model with `retries` explicitly 100, above the 64 bound. -/
def mRetriesBig : Framework.CloudflareProviderModel := { retries := some 100 }

/-- Witness for claim C4: retries = 100 trips the bound check in both
providers. -/
theorem claim4_numeric_bounds_witness :
    (∃ f v, ((f = retriesSchemaKey ∧ v = Sdkv2.resolveRetries envEmpty rdRetriesBig ∧
          strconvIntSize < v) ∨
        (f = minimumBackoffSchemaKey ∧ v = Sdkv2.resolveMinBackOff envEmpty rdRetriesBig ∧
          strconvIntSize < v) ∨
        (f = maximumBackoffSchemaKey ∧ v = Sdkv2.resolveMaxBackOff envEmpty rdRetriesBig ∧
          strconvIntSize < v)) ∧
      Sdkv2.configure envEmpty false "1.4.0" "2.24.1" "dev" rdRetriesBig =
        .error [{ summary := tooLargeMsg f v }]) ∧
    (∃ f v, ((f = retriesSchemaKey ∧ v = Framework.resolveRetries envEmpty mRetriesBig ∧
          strconvIntSize < v) ∨
        (f = minimumBackoffSchemaKey ∧ v = Framework.resolveMinBackOff envEmpty mRetriesBig ∧
          strconvIntSize < v) ∨
        (f = maximumBackoffSchemaKey ∧ v = Framework.resolveMaxBackOff envEmpty mRetriesBig ∧
          strconvIntSize < v)) ∧
      Framework.Configure envEmpty false "1.4.0" "2.24.1" "dev" mRetriesBig =
        .error [{ summary := tooLargeMsg f v, detail := tooLargeMsg f v }]) :=
  claim4_numeric_bounds envEmpty false "1.4.0" "2.24.1" "dev" rdRetriesBig mRetriesBig
    (Or.inl (by decide)) (Or.inl (by decide))

/-- Claim C5 (amended): `rps`, unlike retries and the backoffs, has NO upper
bound check: for any resolved rps value — however large — provided the other
validations pass, both Configure functions return a client whose options carry
the rate limiter with that unmodified rps value; resolution never fails on
account of rps. -/
theorem claim5_rps_unbounded (env : Env) (dbg : Bool) (tf sv pv : String)
    (d : Sdkv2.ResourceData) (m : Framework.CloudflareProviderModel)
    (h1 : Sdkv2.resolveRetries env d ≤ strconvIntSize)
    (h2 : Sdkv2.resolveMinBackOff env d ≤ strconvIntSize)
    (h3 : Sdkv2.resolveMaxBackOff env d ≤ strconvIntSize)
    (hcred : ¬(Sdkv2.resolveAPIKey env d = "" ∧ Sdkv2.resolveAPIToken env d = "" ∧
      Sdkv2.resolveAPIUserServiceKey env d = ""))
    (hmail : Sdkv2.resolveAPIKey env d ≠ "" → Sdkv2.resolveEmail env d ≠ "")
    (g1 : Framework.resolveRetries env m ≤ strconvIntSize)
    (g2 : Framework.resolveMinBackOff env m ≤ strconvIntSize)
    (g3 : Framework.resolveMaxBackOff env m ≤ strconvIntSize)
    (gcred : ¬(Framework.resolveAPIKey env m = "" ∧ Framework.resolveAPIToken env m = "" ∧
      Framework.resolveAPIUserServiceKey env m = ""))
    (gmail : Framework.resolveAPIKey env m ≠ "" → Framework.resolveEmail env m ≠ "") :
    (∃ c, Sdkv2.configure env dbg tf sv pv d = .ok c ∧
      ClientOption.usingRateLimit (Sdkv2.resolveRPS env d) ∈ c.options) ∧
    (∃ c, Framework.Configure env dbg tf sv pv m = .ok c ∧
      ClientOption.usingRateLimit (Framework.resolveRPS env m) ∈ c.options) := by
  constructor
  · exact ⟨_, Sdkv2.configure_success env dbg tf sv pv d h1 h2 h3 hcred hmail,
      by simp [Sdkv2.baseOptions]⟩
  · exact ⟨_, Framework.Configure_success env dbg tf sv pv m g1 g2 g3 gcred gmail,
      by simp [Framework.baseOptions]⟩

/-- Witness for claim C5: rps = 2^40, far above the 64 bound, is accepted by
both providers. -/
theorem claim5_rps_unbounded_witness :
    (∃ c, Sdkv2.configure envTokenOnly false "1.4.0" "2.24.1" "dev"
        { rdEmpty with rps := some 1099511627776 } = .ok c ∧
      ClientOption.usingRateLimit (Sdkv2.resolveRPS envTokenOnly
        { rdEmpty with rps := some 1099511627776 }) ∈ c.options) ∧
    (∃ c, Framework.Configure envTokenOnly false "1.4.0" "2.24.1" "dev"
        { mEmpty with rps := some 1099511627776 } = .ok c ∧
      ClientOption.usingRateLimit (Framework.resolveRPS envTokenOnly
        { mEmpty with rps := some 1099511627776 }) ∈ c.options) :=
  claim5_rps_unbounded envTokenOnly false "1.4.0" "2.24.1" "dev"
    { rdEmpty with rps := some 1099511627776 } { mEmpty with rps := some 1099511627776 }
    (by decide) (by decide) (by decide) (by decide) (by decide)
    (by decide) (by decide) (by decide) (by decide) (by decide)

end Cloudflare

namespace Cloudflare

/-- Claim C8: on any successful configuration, the client's option list is the
five base options followed — exactly when account_id resolves non-empty — by
the account-scoping option carrying the resolved value; when the account_id
field is absent and its environment variable unset, no account-scoping option
is present; the base options do not depend on the account id either way. -/
theorem claim8_account_scoping (env : Env) (dbg : Bool) (tf sv pv : String)
    (d : Sdkv2.ResourceData) (m : Framework.CloudflareProviderModel)
    (h1 : Sdkv2.resolveRetries env d ≤ strconvIntSize)
    (h2 : Sdkv2.resolveMinBackOff env d ≤ strconvIntSize)
    (h3 : Sdkv2.resolveMaxBackOff env d ≤ strconvIntSize)
    (hcred : ¬(Sdkv2.resolveAPIKey env d = "" ∧ Sdkv2.resolveAPIToken env d = "" ∧
      Sdkv2.resolveAPIUserServiceKey env d = ""))
    (hmail : Sdkv2.resolveAPIKey env d ≠ "" → Sdkv2.resolveEmail env d ≠ "")
    (g1 : Framework.resolveRetries env m ≤ strconvIntSize)
    (g2 : Framework.resolveMinBackOff env m ≤ strconvIntSize)
    (g3 : Framework.resolveMaxBackOff env m ≤ strconvIntSize)
    (gcred : ¬(Framework.resolveAPIKey env m = "" ∧ Framework.resolveAPIToken env m = "" ∧
      Framework.resolveAPIUserServiceKey env m = ""))
    (gmail : Framework.resolveAPIKey env m ≠ "" → Framework.resolveEmail env m ≠ "") :
    (∃ c, Sdkv2.configure env dbg tf sv pv d = .ok c ∧
      c.options = Sdkv2.baseOptions env dbg tf sv pv d ++
        (if Sdkv2.resolveAccountID env d ≠ "" then
          [ClientOption.usingAccount (Sdkv2.resolveAccountID env d)] else []) ∧
      (Sdkv2.resolveAccountID env d ≠ "" →
        ClientOption.usingAccount (Sdkv2.resolveAccountID env d) ∈ c.options) ∧
      (d.accountID = none → env accountIDEnvVarKey = none →
        ∀ x, ClientOption.usingAccount x ∉ c.options)) ∧
    (∃ c, Framework.Configure env dbg tf sv pv m = .ok c ∧
      c.options = Framework.baseOptions env dbg tf sv pv m ++
        (if Framework.resolveAccountID env m ≠ "" then
          [ClientOption.usingAccount (Framework.resolveAccountID env m)] else []) ∧
      (Framework.resolveAccountID env m ≠ "" →
        ClientOption.usingAccount (Framework.resolveAccountID env m) ∈ c.options) ∧
      (m.accountID = none → env accountIDEnvVarKey = none →
        ∀ x, ClientOption.usingAccount x ∉ c.options)) := by
  constructor
  · refine ⟨_, Sdkv2.configure_success env dbg tf sv pv d h1 h2 h3 hcred hmail, rfl, ?_, ?_⟩
    · intro hacc
      simp [hacc, Sdkv2.baseOptions]
    · intro hda henv x
      have hres : Sdkv2.resolveAccountID env d = "" := by
        simp [Sdkv2.resolveAccountID, Sdkv2.getOkString, getDefaultFromEnv, hda, henv]
      simp [hres, Sdkv2.baseOptions]
  · refine ⟨_, Framework.Configure_success env dbg tf sv pv m g1 g2 g3 gcred gmail,
      rfl, ?_, ?_⟩
    · intro hacc
      simp [hacc, Framework.baseOptions]
    · intro hda henv x
      have hres : Framework.resolveAccountID env m = "" := by
        simp [Framework.resolveAccountID, getDefaultFromEnv, hda, henv]
      simp [hres, Framework.baseOptions]

/-- A configuration block with only account_id set. -/
def rdAccount : Sdkv2.ResourceData := { accountID := some "acct123" }

/-- A framework model with only account_id set. -/
def mAccount : Framework.CloudflareProviderModel := { accountID := some "acct123" }

/-- Witness for claim C8 at account_id = "acct123" with token-only
credentials. -/
theorem claim8_account_scoping_witness :
    (∃ c, Sdkv2.configure envTokenOnly false "1.4.0" "2.24.1" "dev" rdAccount = .ok c ∧
      c.options = Sdkv2.baseOptions envTokenOnly false "1.4.0" "2.24.1" "dev" rdAccount ++
        (if Sdkv2.resolveAccountID envTokenOnly rdAccount ≠ "" then
          [ClientOption.usingAccount (Sdkv2.resolveAccountID envTokenOnly rdAccount)]
          else []) ∧
      (Sdkv2.resolveAccountID envTokenOnly rdAccount ≠ "" →
        ClientOption.usingAccount (Sdkv2.resolveAccountID envTokenOnly rdAccount) ∈
          c.options) ∧
      (rdAccount.accountID = none → envTokenOnly accountIDEnvVarKey = none →
        ∀ x, ClientOption.usingAccount x ∉ c.options)) ∧
    (∃ c, Framework.Configure envTokenOnly false "1.4.0" "2.24.1" "dev" mAccount = .ok c ∧
      c.options = Framework.baseOptions envTokenOnly false "1.4.0" "2.24.1" "dev" mAccount ++
        (if Framework.resolveAccountID envTokenOnly mAccount ≠ "" then
          [ClientOption.usingAccount (Framework.resolveAccountID envTokenOnly mAccount)]
          else []) ∧
      (Framework.resolveAccountID envTokenOnly mAccount ≠ "" →
        ClientOption.usingAccount (Framework.resolveAccountID envTokenOnly mAccount) ∈
          c.options) ∧
      (mAccount.accountID = none → envTokenOnly accountIDEnvVarKey = none →
        ∀ x, ClientOption.usingAccount x ∉ c.options)) :=
  claim8_account_scoping envTokenOnly false "1.4.0" "2.24.1" "dev" rdAccount mAccount
    (by decide) (by decide) (by decide) (by decide) (by decide)
    (by decide) (by decide) (by decide) (by decide) (by decide)

end Cloudflare

namespace Cloudflare

/-- Claim C9: with the four numeric fields unset and their environment
variables all holding the same non-empty string `s`: when `s` is not a
syntactically valid integer every one of rps, retries, min_backoff and
max_backoff resolves to 0 in both providers — the parse error is silently
discarded and (given valid credentials) configuration succeeds with no
diagnostic; when `s` is a valid integer above the signed 64-bit maximum the
fields resolve to the clamped maximum, and below the minimum to the clamped
minimum. -/
theorem claim9_env_int_parsing (env : Env) (d : Sdkv2.ResourceData)
    (m : Framework.CloudflareProviderModel) (s : String)
    (hd1 : d.rps = none) (hd2 : d.retries = none) (hd3 : d.minBackoff = none)
    (hd4 : d.maxBackoff = none)
    (hm1 : m.rps = none) (hm2 : m.retries = none) (hm3 : m.minBackOff = none)
    (he1 : env rpsEnvVarKey = some s) (he2 : env retriesEnvVarKey = some s)
    (he3 : env minimumBackoffEnvVar = some s) (he4 : env maximumBackoffEnvVarKey = some s)
    (hs : s ≠ "") :
    (goIntSyntaxOk s = false →
      Sdkv2.resolveRPS env d = 0 ∧ Sdkv2.resolveRetries env d = 0 ∧
      Sdkv2.resolveMinBackOff env d = 0 ∧ Sdkv2.resolveMaxBackOff env d = 0 ∧
      Framework.resolveRPS env m = 0 ∧ Framework.resolveRetries env m = 0 ∧
      Framework.resolveMinBackOff env m = 0 ∧ Framework.resolveMaxBackOff env m = 0) ∧
    (goIntSyntaxOk s = false → ∀ dbg tf sv pv,
      Sdkv2.resolveAPIToken env d ≠ "" → Sdkv2.resolveAPIKey env d = "" →
      (Sdkv2.configure env dbg tf sv pv d).isOk = true) ∧
    (goIntSyntaxOk s = true → maxInt64 < goIntVal s →
      Sdkv2.resolveRPS env d = maxInt64 ∧ Sdkv2.resolveRetries env d = maxInt64 ∧
      Sdkv2.resolveMinBackOff env d = maxInt64 ∧ Sdkv2.resolveMaxBackOff env d = maxInt64 ∧
      Framework.resolveRPS env m = maxInt64 ∧ Framework.resolveRetries env m = maxInt64 ∧
      Framework.resolveMinBackOff env m = maxInt64 ∧
      Framework.resolveMaxBackOff env m = maxInt64) ∧
    (goIntSyntaxOk s = true → goIntVal s < minInt64 →
      Sdkv2.resolveRPS env d = minInt64 ∧ Sdkv2.resolveRetries env d = minInt64 ∧
      Sdkv2.resolveMinBackOff env d = minInt64 ∧ Sdkv2.resolveMaxBackOff env d = minInt64 ∧
      Framework.resolveRPS env m = minInt64 ∧ Framework.resolveRetries env m = minInt64 ∧
      Framework.resolveMinBackOff env m = minInt64 ∧
      Framework.resolveMaxBackOff env m = minInt64) := by
  have key : ∀ k dflt, env k = some s → getDefaultFromEnv env k dflt = s := by
    intro k dflt hk
    simp [getDefaultFromEnv, hk, hs]
  have e1 : Sdkv2.resolveRPS env d = goParseInt64 s := by
    simp [Sdkv2.resolveRPS, Sdkv2.getOkInt, hd1, key _ _ he1]
  have e2 : Sdkv2.resolveRetries env d = goParseInt64 s := by
    simp [Sdkv2.resolveRetries, Sdkv2.getOkInt, hd2, key _ _ he2]
  have e3 : Sdkv2.resolveMinBackOff env d = goParseInt64 s := by
    simp [Sdkv2.resolveMinBackOff, Sdkv2.getOkInt, hd3, key _ _ he3]
  have e4 : Sdkv2.resolveMaxBackOff env d = goParseInt64 s := by
    simp [Sdkv2.resolveMaxBackOff, Sdkv2.getOkInt, hd4, key _ _ he4]
  have f1 : Framework.resolveRPS env m = goParseInt64 s := by
    simp [Framework.resolveRPS, hm1, key _ _ he1]
  have f2 : Framework.resolveRetries env m = goParseInt64 s := by
    simp [Framework.resolveRetries, hm2, key _ _ he2]
  have f3 : Framework.resolveMinBackOff env m = goParseInt64 s := by
    simp [Framework.resolveMinBackOff, hm3, key _ _ he3]
  have f4 : Framework.resolveMaxBackOff env m = goParseInt64 s := by
    simp [Framework.resolveMaxBackOff, hm3, key _ _ he4]
  refine ⟨?_, ?_, ?_, ?_⟩
  · intro hbad
    have h0 : goParseInt64 s = 0 := by simp [goParseInt64, hbad]
    rw [e1, e2, e3, e4, f1, f2, f3, f4, h0]
    simp
  · intro hbad dbg tf sv pv htok hkey
    have h0 : goParseInt64 s = 0 := by simp [goParseInt64, hbad]
    have hsucc := Sdkv2.configure_success env dbg tf sv pv d
      (by rw [e2, h0]; decide) (by rw [e3, h0]; decide) (by rw [e4, h0]; decide)
      (fun hc => htok hc.2.1) (fun hne => absurd hkey hne)
    rw [hsucc]
    rfl
  · intro hok hbig
    have hp : goParseInt64 s = maxInt64 := by simp [goParseInt64, hok, hbig]
    rw [e1, e2, e3, e4, f1, f2, f3, f4, hp]
    simp
  · intro hok hsmall
    have hnb : ¬ (maxInt64 < goIntVal s) := by
      have hlt : goIntVal s < maxInt64 := lt_trans hsmall (by decide)
      exact not_lt.mpr hlt.le
    have hp : goParseInt64 s = minInt64 := by simp [goParseInt64, hok, hnb, hsmall]
    rw [e1, e2, e3, e4, f1, f2, f3, f4, hp]
    simp

/-- An environment mapping all four numeric variables to the same string. -/
def envIntsAll (s : String) : Env :=
  envOfList [(rpsEnvVarKey, s), (retriesEnvVarKey, s),
    (minimumBackoffEnvVar, s), (maximumBackoffEnvVarKey, s)]

/-- Witness for claim C9 at three concrete environment values: a malformed
integer, a value above the signed 64-bit maximum (2^64), and a value below
the minimum (-2^64). -/
theorem claim9_env_int_parsing_witness :
    (Sdkv2.resolveRPS (envIntsAll "junk") rdEmpty = 0 ∧
      Sdkv2.resolveRetries (envIntsAll "junk") rdEmpty = 0 ∧
      Sdkv2.resolveMinBackOff (envIntsAll "junk") rdEmpty = 0 ∧
      Sdkv2.resolveMaxBackOff (envIntsAll "junk") rdEmpty = 0 ∧
      Framework.resolveRPS (envIntsAll "junk") mEmpty = 0 ∧
      Framework.resolveRetries (envIntsAll "junk") mEmpty = 0 ∧
      Framework.resolveMinBackOff (envIntsAll "junk") mEmpty = 0 ∧
      Framework.resolveMaxBackOff (envIntsAll "junk") mEmpty = 0) ∧
    (Sdkv2.resolveRPS (envIntsAll "18446744073709551616") rdEmpty = maxInt64 ∧
      Sdkv2.resolveRetries (envIntsAll "18446744073709551616") rdEmpty = maxInt64 ∧
      Sdkv2.resolveMinBackOff (envIntsAll "18446744073709551616") rdEmpty = maxInt64 ∧
      Sdkv2.resolveMaxBackOff (envIntsAll "18446744073709551616") rdEmpty = maxInt64 ∧
      Framework.resolveRPS (envIntsAll "18446744073709551616") mEmpty = maxInt64 ∧
      Framework.resolveRetries (envIntsAll "18446744073709551616") mEmpty = maxInt64 ∧
      Framework.resolveMinBackOff (envIntsAll "18446744073709551616") mEmpty = maxInt64 ∧
      Framework.resolveMaxBackOff (envIntsAll "18446744073709551616") mEmpty = maxInt64) ∧
    (Sdkv2.resolveRPS (envIntsAll "-18446744073709551616") rdEmpty = minInt64 ∧
      Sdkv2.resolveRetries (envIntsAll "-18446744073709551616") rdEmpty = minInt64 ∧
      Sdkv2.resolveMinBackOff (envIntsAll "-18446744073709551616") rdEmpty = minInt64 ∧
      Sdkv2.resolveMaxBackOff (envIntsAll "-18446744073709551616") rdEmpty = minInt64 ∧
      Framework.resolveRPS (envIntsAll "-18446744073709551616") mEmpty = minInt64 ∧
      Framework.resolveRetries (envIntsAll "-18446744073709551616") mEmpty = minInt64 ∧
      Framework.resolveMinBackOff (envIntsAll "-18446744073709551616") mEmpty = minInt64 ∧
      Framework.resolveMaxBackOff (envIntsAll "-18446744073709551616") mEmpty = minInt64) := by
  refine ⟨?_, ?_, ?_⟩
  · exact (claim9_env_int_parsing (envIntsAll "junk") rdEmpty mEmpty "junk"
      rfl rfl rfl rfl rfl rfl rfl (by decide) (by decide) (by decide) (by decide)
      (by decide)).1 (by decide)
  · exact ((claim9_env_int_parsing (envIntsAll "18446744073709551616") rdEmpty mEmpty
      "18446744073709551616" rfl rfl rfl rfl rfl rfl rfl (by decide) (by decide)
      (by decide) (by decide) (by decide)).2.2.1) (by decide) (by decide)
  · exact ((claim9_env_int_parsing (envIntsAll "-18446744073709551616") rdEmpty mEmpty
      "-18446744073709551616" rfl rfl rfl rfl rfl rfl rfl (by decide) (by decide)
      (by decide) (by decide) (by decide)).2.2.2) (by decide) (by decide)

end Cloudflare
